import Mathlib

/-!
Shallow embedding of the session-management core of irkerd (irkerd.py) and
proofs about the claims of its specification.

Python strings are modelled as `List Char`; Python dicts as association
lists with insertion-order update (`setA`); wall-clock times as `Int`
seconds; Python exceptions as an `Except PyErr` result.  Each definition
carries a note naming the Python function it embeds.
-/

set_option autoImplicit false

namespace Irkerd

/-- Python strings are modelled as lists of characters. -/
abbrev PyStr := List Char

/-- Shorthand turning a Lean string literal into the `PyStr` model. -/
def str (s : String) : PyStr := s.data

/-! Tunable constants from the top of irkerd.py. -/

def XMIT_TTL : Int := 3 * 60 * 60
def PING_TTL : Int := 15 * 60
def HANDSHAKE_TTL : Int := 60
def CHANNEL_TTL : Int := 3 * 60 * 60
def DISCONNECT_TTL : Int := 24 * 60 * 60
def UNSEEN_TTL : Int := 60
def CHANNEL_MAX : Int := 18

/-- The Python exceptions that the embedded code can raise. `invalidRequest`
models irkerd's own `InvalidRequest` (a `ValueError` subclass); the others
are builtin exception classes. -/
inductive PyErr where
  | attributeError
  | typeError
  | indexError
  | valueError
  | invalidRequest
  deriving DecidableEq

/-- Python `s[0]` on the nonempty strings irkerd indexes.  `'\x00'` stands in
for the empty-string `IndexError` case, which no claim exercises (channel
names reaching these code paths are nonempty by `Target.validate`). -/
def hd0 : PyStr → Char
  | [] => '\x00'
  | c :: _ => c

/-- Dict lookup (`d.get(k)` / `k in d`): first binding of the key. -/
def lookupA {α β : Type} [DecidableEq α] : List (α × β) → α → Option β
  | [], _ => none
  | (k, v) :: rest, key => if k = key then some v else lookupA rest key

/-- Dict assignment `d[k] = v`: replace the binding if present, else append
(insertion order, as Python dicts preserve it). -/
def setA {α β : Type} [DecidableEq α] : List (α × β) → α → β → List (α × β)
  | [], key, v => [(key, v)]
  | (k, w) :: rest, key, v =>
    if k = key then (key, v) :: rest else (k, w) :: setA rest key v

/-- Dict deletion `del d[k]` (keys are unique by construction, so removing
every binding of the key is the Python behaviour). -/
def delA {α β : Type} [DecidableEq α] : List (α × β) → α → List (α × β)
  | [], _ => []
  | (k, v) :: rest, key =>
    if k = key then delA rest key else (k, v) :: delA rest key

/-- Split a string at the first occurrence of a character (Python
`s.split(c, 1)` when the character occurs; `none` otherwise). -/
def splitAtFirst : PyStr → Char → Option (PyStr × PyStr)
  | [], _ => none
  | c :: rest, sep =>
    if c = sep then some ([], rest)
    else
      match splitAtFirst rest sep with
      | none => none
      | some (a, b) => some (c :: a, b)

/-- Split a string at the last occurrence of a character (Python
`s.rpartition(c)` when the character occurs; `none` otherwise). -/
def splitAtLast : PyStr → Char → Option (PyStr × PyStr)
  | [], _ => none
  | c :: rest, sep =>
    match splitAtLast rest sep with
    | some (a, b) => some (c :: a, b)
    | none => if c = sep then some ([], rest) else none

/-- Python `s.lower()` (ASCII case folding; irkerd's channel and host names
are ASCII). -/
def pyLower (l : PyStr) : PyStr := l.map Char.toLower

/-- Value of an all-digit string, `none` if empty or not all digits. -/
def digitsVal (l : PyStr) : Option Nat :=
  if l ≠ [] ∧ l.all Char.isDigit then
    some (l.foldl (fun acc c => 10 * acc + (c.toNat - '0'.toNat)) 0)
  else none

/-- Python `int(s)`: optional surrounding whitespace, optional sign, at
least one digit (digit-group underscores are not modelled; irkerd's inputs
never carry them). -/
def pyIntParse (l : PyStr) : Option Int :=
  let t := ((l.dropWhile Char.isWhitespace).reverse.dropWhile Char.isWhitespace).reverse
  match t with
  | '-' :: rest => (digitsVal rest).map (fun n => -(n : Int))
  | '+' :: rest => (digitsVal rest).map (fun n => (n : Int))
  | _ => (digitsVal t).map (fun n => (n : Int))

/-- Python slice `s[:stop]` with a possibly negative `stop`:
a negative stop counts from the end (`max 0 (len s + stop)` characters). -/
def pySliceTo (s : PyStr) (stop : Int) : PyStr :=
  if stop < 0 then s.take ((s.length : Int) + stop).toNat else s.take stop.toNat

/-- Python `s.split(sep)` with an explicit one-character separator:
keeps empty fields, `"" → [""]`. -/
def pySplitSep : PyStr → Char → List PyStr
  | [], _ => [[]]
  | c :: rest, sep =>
    if c = sep then [] :: pySplitSep rest sep
    else
      match pySplitSep rest sep with
      | [] => [[c]]
      | g :: gs => (c :: g) :: gs

/-- Python `s.split()` with no argument: splits on whitespace runs and
drops empty fields. -/
def pySplitWs (l : PyStr) : List PyStr :=
  (List.splitOnP Char.isWhitespace l).filter (fun g => decide (g ≠ []))

/-- Split at the first occurrence of the two-character separator `" :"`
(Python `s.split(" :", 1)` when it occurs; `none` otherwise). -/
def splitSpColonFirst : PyStr → Option (PyStr × PyStr)
  | ' ' :: ':' :: tail => some ([], tail)
  | c :: rest => (splitSpColonFirst rest).map (fun ab => (c :: ab.1, ab.2))
  | [] => none

/-! URL parsing.  irkerd builds a `Target` with `urllib.parse.urlparse`;
the functions below embed the CPython `urlsplit` algorithm restricted to
the shapes irkerd feeds it (no bracketed IPv6 hosts, no whitespace
stripping of the raw URL). -/

/-- Characters CPython allows in a URL scheme. -/
def schemeCharsOk (c : Char) : Bool :=
  c.isAlpha || c.isDigit || c == '+' || c == '-' || c == '.'

/-- The result of CPython `urlsplit`. -/
structure UrlSplitT where
  scheme : PyStr
  netloc : PyStr
  path : PyStr
  query : PyStr
  fragment : PyStr
  deriving DecidableEq

/-- CPython `urlsplit`: scheme before the first `':'` when well-formed
(lowercased), netloc after `"//"` up to `/?#`, then the fragment is split
off at the first `'#'`, then the query at the first `'?'`.  (`urlparse`
additionally splits `;params` off the path; irkerd's URLs carry none.) -/
def urlsplitF (url : PyStr) : UrlSplitT :=
  let schemeRest : PyStr × PyStr :=
    match splitAtFirst url ':' with
    | some (before, after) =>
      if before ≠ [] ∧ (hd0 before).isAlpha ∧ before.all schemeCharsOk then
        (pyLower before, after)
      else ([], url)
    | none => ([], url)
  let netlocRest : PyStr × PyStr :=
    match schemeRest.2 with
    | '/' :: '/' :: tail =>
      (tail.takeWhile (fun c => decide (c ∉ ['/', '?', '#'])),
       tail.dropWhile (fun c => decide (c ∉ ['/', '?', '#'])))
    | other => ([], other)
  let restFragment : PyStr × PyStr :=
    match splitAtFirst netlocRest.2 '#' with
    | some (a, b) => (a, b)
    | none => (netlocRest.2, [])
  let pathQuery : PyStr × PyStr :=
    match splitAtFirst restFragment.1 '?' with
    | some (a, b) => (a, b)
    | none => (restFragment.1, [])
  ⟨schemeRest.1, netlocRest.1, pathQuery.1, pathQuery.2, restFragment.2⟩

/-- The `host:port` part of a netloc: everything after the last `'@'`. -/
def hostportOf (netloc : PyStr) : PyStr :=
  match splitAtLast netloc '@' with
  | some (_, hp) => hp
  | none => netloc

/-- The raw port substring of a netloc, `none` when absent or empty
(CPython `_hostinfo`). -/
def portStrOf (netloc : PyStr) : Option PyStr :=
  match splitAtFirst (hostportOf netloc) ':' with
  | some (_, p) => if p = [] then none else some p
  | none => none

/-- CPython `parsed.hostname`: host part lowercased; `[]` models Python's
`None` for a missing host (both are falsy where irkerd tests them). -/
def hostnameOf (netloc : PyStr) : PyStr :=
  pyLower ((hostportOf netloc).takeWhile (fun c => decide (c ≠ ':')))

/-- CPython `parsed.port`: `none` when absent; `ValueError` when not an
integer in `0..65535`. -/
def portOfE (netloc : PyStr) : Except PyErr (Option Int) :=
  match portStrOf netloc with
  | none => .ok none
  | some p =>
    match pyIntParse p with
    | some n => if 0 ≤ n ∧ n ≤ 65535 then .ok (some n) else .error .valueError
    | none => .error .valueError

/-- CPython `parsed.username`: userinfo (before the last `'@'`) up to the
first `':'`. -/
def usernameOf (netloc : PyStr) : Option PyStr :=
  match splitAtLast netloc '@' with
  | some (ui, _) => some (ui.takeWhile (fun c => decide (c ≠ ':')))
  | none => none

/-- CPython `parsed.password`: userinfo after its first `':'`. -/
def passwordOf (netloc : PyStr) : Option PyStr :=
  match splitAtLast netloc '@' with
  | some (ui, _) =>
    (match splitAtFirst ui ':' with
     | some (_, pw) => some pw
     | none => none)
  | none => none

/-- The channel string `Target.__init__` holds just before the `",isnick"`
and leading-`'#'` adjustments: the path component lowercased with leading
slashes stripped, then the fragment re-attached with a literal `'#'`
(lines 696-699 of irkerd.py). -/
def chanBase (url : PyStr) : PyStr :=
  let p := urlsplitF url
  let channel0 := pyLower (p.path.dropWhile (fun c => decide (c = '/')))
  if p.fragment ≠ [] then channel0 ++ '#' :: p.fragment else channel0

/-- The `Target` class: a parsed transmission target. -/
structure TargetT where
  url : PyStr
  ssl : Bool
  username : Option PyStr
  password : Option PyStr
  servername : PyStr
  port : Int
  channel : PyStr
  key : PyStr
  deriving DecidableEq

/-- `Target.__init__`.  Follows the source line by line: scheme test,
default port, path lowercased and leading slashes stripped, fragment
re-appended with a literal `'#'`, `",isnick"` suffix stripped, `'#'`
prepended when the first character is not in `"#&+"`, and the
`re.sub("^key=", "", query)` key.  A malformed port makes `parsed.port`
raise `ValueError` (uncaught in `Target.__init__`). -/
def targetOfE (url : PyStr) : Except PyErr TargetT :=
  let p := urlsplitF url
  let dflt : Int := if p.scheme = str "ircs" then 6697 else 6667
  match portOfE p.netloc with
  | .error e => .error e
  | .ok portOpt =>
    let port : Int :=
      match portOpt with
      | some n => if n = 0 then dflt else n   -- `parsed.port or default`: 0 is falsy
      | none => dflt
    let channel1 := chanBase url
    let isnick := (str ",isnick").isSuffixOf channel1
    let channel2 := if isnick then channel1.take (channel1.length - 7) else channel1
    let channel3 :=
      if channel2 ≠ [] ∧ ¬ isnick ∧ hd0 channel2 ∉ ['#', '&', '+'] then
        '#' :: channel2
      else channel2
    let key :=
      if p.query ≠ [] then
        (if (str "key=").isPrefixOf p.query then p.query.drop 4 else p.query)
      else []
    .ok ⟨url, decide (p.scheme = str "ircs"), usernameOf p.netloc, passwordOf p.netloc,
         hostnameOf p.netloc, port, channel3, key⟩

/-- `Target.validate` succeeds: servername and channel both present
(Python raises `InvalidRequest` when either is falsy). -/
def validateOk (t : TargetT) : Bool :=
  decide (t.servername ≠ []) && decide (t.channel ≠ [])

/-! JSON requests.  `Irker._parse_request` receives the result of
`json.loads`; JSON values are modelled by `JValue`. -/

/-- A decoded JSON value. -/
inductive JValue where
  | jstr (s : PyStr)
  | jnum (n : Int)
  | jbool (b : Bool)
  | jnull
  | jarr (xs : List JValue)
  | jobj (kvs : List (PyStr × JValue))

/-- The per-URL loop of `Irker._parse_request`: a non-string URL or a
`Target` failing validation raises `InvalidRequest`, which is caught and
logged, skipping that URL; a `ValueError` out of `Target.__init__`
(malformed port) is not caught there and aborts the whole request. -/
def parseTargets : List JValue → Except PyErr (List TargetT)
  | [] => .ok []
  | u :: rest =>
    match u with
    | .jstr s =>
      (match targetOfE s with
       | .error e => .error e
       | .ok t =>
         (parseTargets rest).map (fun ts => if validateOk t then t :: ts else ts))
    | _ => parseTargets rest

/-- `Irker._parse_request` on a decoded JSON value: the request must be an
object carrying `"to"` (string or list) and `"privmsg"` (string); the URL
loop then collects the valid targets. -/
def parseRequest (j : JValue) : Except PyErr (List TargetT × PyStr) :=
  match j with
  | .jobj kvs =>
    (match lookupA kvs (str "to"), lookupA kvs (str "privmsg") with
     | some toV, some pmV =>
       (match toV, pmV with
        | .jstr u, .jstr msg => (parseTargets [.jstr u]).map (fun ts => (ts, msg))
        | .jarr urls, .jstr msg => (parseTargets urls).map (fun ts => (ts, msg))
        | _, _ => .error .invalidRequest)
     | _, _ => .error .invalidRequest)
  | _ => .error .invalidRequest

/-- Top-level shape check of a request: a JSON object whose `"to"` is a
string or a list and whose `"privmsg"` is a string (the checks
`_parse_request` performs before the URL loop). -/
def wellShaped (j : JValue) : Bool :=
  match j with
  | .jobj kvs =>
    (match lookupA kvs (str "to"), lookupA kvs (str "privmsg") with
     | some toV, some pmV =>
       (match toV with | .jstr _ => true | .jarr _ => true | _ => false) &&
       (match pmV with | .jstr _ => true | _ => false)
     | _, _ => false)
  | _ => false

/-- The targets `Irker.handle` dispatches for a request: none when
`_parse_request` raised (the exception is caught and only logged; nothing
is sent back to the requester). -/
def requestTargets (j : JValue) : List TargetT :=
  match parseRequest j with
  | .ok (ts, _) => ts
  | .error _ => []

/-- The target produced by one URL entry of a `"to"` list, `none` when the
entry is discarded (non-string, or failing validation). -/
def goodTarget (u : JValue) : Option TargetT :=
  match u with
  | .jstr s =>
    (match targetOfE s with
     | .ok t => if validateOk t then some t else none
     | .error _ => none)
  | _ => none

/-- A URL entry that does not abort the request with a `ValueError`
(every non-string entry, and every string whose port part is well-formed). -/
def urlNoValueError (u : JValue) : Bool :=
  match u with
  | .jstr s => (match targetOfE s with | .ok _ => true | .error _ => false)
  | _ => true

/-! The `Connection` class: per-socket session state and its consumer
loop.  `random.randint` draws and `time.time()` readings are passed in as
explicit step inputs. -/

/-- `Connection.status` values.  `unset` models the Python `None` a fresh
`Connection` holds before `enqueue` marks it `unseen`. -/
inductive ConnStatus where
  | unset
  | unseen
  | handshaking
  | ready
  | disconnected
  | expired
  deriving DecidableEq

/-- One `(channel, message, key)` queue item; `message = none` models the
Python `None` quit sentinel. -/
structure QItem where
  channel : PyStr
  message : Option PyStr
  key : PyStr
  deriving DecidableEq

/-- IRC commands the embedded code ships (the send side of
`IRCServerConnection`).  `connectTo` stands for opening the server socket
in `connect` (which also ships PASS when the target URL carries a
password, then NICK and USER). -/
inductive Action where
  | join (channel key : PyStr)
  | privmsg (channel text : PyStr)
  | quit (msg : PyStr)
  | nick (n : PyStr)
  | user
  | mode (tgt modeStr : PyStr)
  | part (channel msg : PyStr)
  | connectTo
  deriving DecidableEq

/-- The mutable fields of a `Connection`.  `hasConnection` models
`self.connection is not None`; `threadAlive` models
`self.thread is not None and self.thread.is_alive()`. -/
structure ConnState where
  status : ConnStatus
  hasConnection : Bool
  nick_trial : Int
  last_xmit : Int
  last_ping : Int
  channels_joined : List (PyStr × Int)
  channel_limits : List (Char × Int)
  queue : List QItem
  threadAlive : Bool
  nick_template : PyStr
  nick_needs_number : Bool
  deriving DecidableEq

/-- `channel_limits.get(channel[0], CHANNEL_MAX)`. -/
def limitGet (limits : List (Char × Int)) (c : Char) : Int :=
  (lookupA limits c).getD CHANNEL_MAX

/-- The `match_count` loop of `Connection.accepting`: how many joined
channels share the given first character. -/
def matchCount (joined : List (PyStr × Int)) (c : Char) : Nat :=
  joined.foldl (fun acc p => if hd0 p.1 = c then acc + 1 else acc) 0

/-- `Connection.accepting`: with a nonempty `channel_limits` dict, compare
the per-prefix joined count against the per-prefix limit; with an empty
dict, compare the total joined count against `CHANNEL_MAX`. -/
def ConnState.accepting (s : ConnState) (channel : PyStr) : Bool :=
  if s.channel_limits ≠ [] then
    decide ((matchCount s.channels_joined (hd0 channel) : Int) <
      limitGet s.channel_limits (hd0 channel))
  else
    decide ((s.channels_joined.length : Int) < CHANNEL_MAX)

/-- `Connection.joined_to`. -/
def ConnState.joined_to (s : ConnState) (channel : PyStr) : Bool :=
  (lookupA s.channels_joined channel).isSome

/-- `Connection.live`. -/
def ConnState.live (s : ConnState) : Bool :=
  decide (s.status ≠ ConnStatus.expired)

/-- Decimal rendering of an integer (for `%d` formatting). -/
def intDecimal (n : Int) : PyStr :=
  if n < 0 then '-' :: Nat.toDigits 10 (-n).toNat else Nat.toDigits 10 n.toNat

/-- Pad a rendered number on the left to the given width; zero fill goes
after the sign, as Python `%` formatting does. -/
def padNum (fill : Char) (width : Nat) (s : PyStr) : PyStr :=
  match fill, s with
  | '0', '-' :: rest => '-' :: (List.replicate (width - (rest.length + 1)) '0' ++ rest)
  | _, _ => List.replicate (width - s.length) fill ++ s

/-- Python `template % n` restricted to a single integer directive
(optionally zero-filled, e.g. the stock `"irker%03d"` template), the only
form irkerd's nick templates use. -/
def pyFormatD (template : PyStr) (n : Int) : PyStr :=
  match splitAtFirst template '%' with
  | none => template
  | some (pre, rest) =>
    let ds := rest.takeWhile Char.isDigit
    let after := rest.drop ds.length
    match after with
    | 'd' :: tail =>
      let width := (digitsVal ds).getD 0
      let fill := if ds ≠ [] ∧ hd0 ds = '0' then '0' else ' '
      pre ++ padNum fill width (intDecimal n) ++ tail
    | _ => template

/-- `Connection.nickname`: interpolate the trial number when the template
carries a `%d` marker. -/
def nicknameFor (template : PyStr) (needsNumber : Bool) (n : Int) : PyStr :=
  if needsNumber then pyFormatD template n else template

/-- `Connection.handle_badnick`: `r` is the `random.randint(1, 3)` draw
(only used when the template needs a number; otherwise the handler falls
through without acting). -/
def handle_badnick (s : ConnState) (now r : Int) : ConnState × List Action :=
  if s.nick_needs_number then
    ({ s with nick_trial := s.nick_trial + r, last_xmit := now },
     [Action.nick (nicknameFor s.nick_template true (s.nick_trial + r))])
  else (s, [])

/-- `Connection.handle_kick`: status flips to handshaking, the channel is
deleted from `channels_joined` (a `KeyError` is caught and only logged),
the queue is drained and re-filled keeping items for other channels in
order, and status is set back to ready. -/
def handle_kick (s : ConnState) (outof : PyStr) : ConnState :=
  let s1 := { s with status := ConnStatus.handshaking }
  let s2 := { s1 with channels_joined := delA s1.channels_joined outof }
  let s3 := { s2 with queue := s2.queue.filter (fun it => decide (it.channel ≠ outof)) }
  { s3 with status := ConnStatus.ready }

/-- `Connection.enqueue`: (re)start the consumer thread marking the
session unseen when no live thread exists, then put the item, plus the
quit sentinel when `quit_after` is set. -/
def enqueue (s : ConnState) (channel : PyStr) (message : Option PyStr) (key : PyStr)
    (quit_after : Bool) : ConnState :=
  let s0 := if ¬ s.threadAlive then
      { s with status := ConnStatus.unseen, threadAlive := true }
    else s
  let s1 := { s0 with queue := s0.queue ++ [⟨channel, message, key⟩] }
  if quit_after then { s1 with queue := s1.queue ++ [⟨channel, none, key⟩] } else s1

/-- The step inputs of one iteration of `Connection.dequeue`: the current
wall clock, whether a `connect` attempt would succeed, and the
`random.randint(1, 990)` nick draw for a reconnect. -/
structure StepIn where
  now : Int
  connectOk : Bool
  nickDraw : Int

/-- The result of one iteration of `Connection.dequeue`. -/
structure StepOut where
  state : ConnState
  actions : List Action
  brk : Bool

/-- One iteration of the `while True` loop of `Connection.dequeue`,
following the branch order of the source.  Sleeps (`ANTI_BUZZ_DELAY`,
`ANTI_FLOOD_DELAY`) are timing only and leave the state unchanged.  On the
idle-timeout path with no server connection, Python raises
`AttributeError` on `self.connection.context`, which the enclosing
`except` turns into `status = "expired"`; that outcome is modelled
directly. -/
def dequeueStep (s : ConnState) (i : StepIn) : StepOut :=
  if s.queue = [] then
    let xmitTimeout := i.now > s.last_xmit + XMIT_TTL
    let pingTimeout := i.now > s.last_ping + PING_TTL
    if s.status = ConnStatus.disconnected then
      ⟨{ s with status := ConnStatus.expired }, [], true⟩
    else if xmitTimeout ∨ pingTimeout then
      if s.hasConnection then
        ⟨{ s with hasConnection := false, status := ConnStatus.disconnected },
         [Action.quit (str "transmission timeout")], false⟩
      else
        ⟨{ s with status := ConnStatus.expired }, [], true⟩
    else
      ⟨s, [], false⟩
  else if s.status = ConnStatus.disconnected ∧ i.now > s.last_xmit + DISCONNECT_TTL then
    ⟨{ s with status := ConnStatus.expired }, [], true⟩
  else if s.hasConnection = false ∧ s.status ≠ ConnStatus.expired then
    let s1 := { s with hasConnection := true, nick_trial := i.nickDraw,
                       channels_joined := [] }
    if i.connectOk then
      ⟨{ s1 with status := ConnStatus.handshaking, last_xmit := i.now, last_ping := i.now },
       [Action.connectTo,
        Action.nick (nicknameFor s.nick_template s.nick_needs_number i.nickDraw),
        Action.user], false⟩
    else
      ⟨{ s1 with status := ConnStatus.expired }, [Action.connectTo], true⟩
  else if s.status = ConnStatus.handshaking then
    if i.now > s.last_xmit + HANDSHAKE_TTL then
      ⟨{ s with status := ConnStatus.expired }, [], true⟩
    else
      ⟨s, [], false⟩
  else if s.status = ConnStatus.unseen ∧ i.now > s.last_xmit + UNSEEN_TTL then
    ⟨{ s with status := ConnStatus.expired }, [], true⟩
  else if s.status = ConnStatus.ready then
    match s.queue with
    | [] => ⟨s, [], false⟩
    | item :: rest =>
      let joinActs :=
        if lookupA s.channels_joined item.channel = none then
          [Action.join item.channel item.key]
        else []
      let msgActs :=
        match item.message with
        | none => [Action.quit []]
        | some m =>
          if m = [] then []
          else
            (pySplitSep m '\n').map (fun seg =>
              let maxlength : Int := 500 - (item.channel.length : Int)
              Action.privmsg item.channel
                (if (seg.length : Int) > maxlength then pySliceTo seg maxlength else seg))
      ⟨{ s with queue := rest,
                last_xmit := i.now,
                channels_joined := setA s.channels_joined item.channel i.now },
       joinActs ++ msgActs, false⟩
  else if s.status = ConnStatus.expired then
    ⟨s, [], true⟩
  else
    ⟨s, [], false⟩

/-! The `Dispatcher` class: the pool of Connections for one
`(server, port)`. -/

/-- A `Dispatcher`: its ordered Connection pool plus the configuration a
new `Connection` is created with. -/
structure DispState where
  connections : List ConnState
  nick_template : PyStr
  nick_needs_number : Bool

/-- `Connection.__init__` as invoked from `Dispatcher.dispatch`
(`last_xmit`/`last_ping` start at the current time; `nick_trial` starts as
Python `None`, modelled 0, and is overwritten before first use). -/
def newConnState (d : DispState) (now : Int) : ConnState :=
  { status := ConnStatus.unset, hasConnection := false, nick_trial := 0,
    last_xmit := now, last_ping := now, channels_joined := [], channel_limits := [],
    queue := [], threadAlive := false,
    nick_template := d.nick_template, nick_needs_number := d.nick_needs_number }

/-- Apply a function to the list element at an index. -/
def updateAt {α : Type} : List α → Nat → (α → α) → List α
  | [], _, _ => []
  | x :: xs, 0, f => f x :: xs
  | x :: xs, n + 1, f => x :: updateAt xs n f

/-- `Dispatcher.dispatch`.  The first live Connection joined to the
channel, else the first live accepting one, gets the item.  Otherwise the
scavenging loop runs `for (chan, age) in connections.channels_joined...`:
`connections` there is the *list* of live Connections, so its first
iteration raises `AttributeError` whenever that list is nonempty (and the
`ancients` branch would further call the nonexistent
`found_connection.part`); only with no live Connection at all does the
loop body never run and a fresh Connection get appended. -/
def dispatchE (d : DispState) (channel : PyStr) (message : Option PyStr) (key : PyStr)
    (quit_after : Bool) (now : Int) : Except PyErr DispState :=
  match d.connections.findIdx? (fun x => x.live && x.joined_to channel) with
  | some i =>
    .ok { d with connections :=
            updateAt d.connections i (fun c => enqueue c channel message key quit_after) }
  | none =>
    match d.connections.findIdx? (fun x => x.live && x.accepting channel) with
    | some i =>
      .ok { d with connections :=
              updateAt d.connections i (fun c => enqueue c channel message key quit_after) }
    | none =>
      if d.connections.filter ConnState.live = [] then
        .ok { d with connections :=
                d.connections ++ [enqueue (newConnState d now) channel message key quit_after] }
      else
        .error .attributeError

/-! `Irker._handle_features`: the ISUPPORT feature-list handler. -/

/-- The inner loop of the `CHANLIMIT` branch: each comma-separated group
`<prefixes>:<n>` sets every character of `prefixes` to `n`; a group that
does not split into exactly two parts, or whose limit is not an integer,
raises `ValueError`, which the surrounding `try` catches after the
already-made assignments have taken effect. -/
def chanlimitLoop (acc : List (Char × Int)) : List PyStr → List (Char × Int)
  | [] => acc
  | g :: gs =>
    match pySplitSep g ':' with
    | [pfxs, limitStr] =>
      (match pyIntParse limitStr with
       | some n => chanlimitLoop (pfxs.foldl (fun a c => setA a c n) acc) gs
       | none => acc)
    | _ => acc

/-- One token of `Irker._handle_features`: `DEAF=` ships a MODE unless a
watcher logfile is configured; `MAXCHANNELS=<n>` sets the `#`, `&` and `+`
limits (`int()` of a malformed number raises out of the handler);
`CHANLIMIT=#:...` — note the literal `"#:"` in the `startswith` test —
runs the group loop; everything else is ignored. -/
def featureStep (logfile : Bool) (nickname : PyStr) (limits : List (Char × Int))
    (lump : PyStr) : Except PyErr (List (Char × Int) × List Action) :=
  if (str "DEAF=").isPrefixOf lump then
    .ok (limits, if ¬ logfile then [Action.mode nickname ('+' :: lump.drop 5)] else [])
  else if (str "MAXCHANNELS=").isPrefixOf lump then
    (match pyIntParse (lump.drop 12) with
     | some m => .ok (setA (setA (setA limits '#' m) '&' m) '+' m, [])
     | none => .error .valueError)
  else if (str "CHANLIMIT=#:").isPrefixOf lump then
    .ok (chanlimitLoop limits (pySplitSep (lump.drop 10) ','), [])
  else
    .ok (limits, [])

/-- `Irker._handle_features` over the full argument list of a featurelist
event. -/
def handleFeatures (logfile : Bool) (nickname : PyStr) (limits : List (Char × Int)) :
    List PyStr → Except PyErr (List (Char × Int) × List Action)
  | [] => .ok (limits, [])
  | lump :: rest =>
    match featureStep logfile nickname limits lump with
    | .error e => .error e
    | .ok (l1, acts) =>
      (handleFeatures logfile nickname l1 rest).map (fun r => (r.1, acts ++ r.2))

/-- The limit the last group mentioning a character assigns, scanning a
structured group list left to right (later groups override earlier ones). -/
def lastLimitFor (gs : List (PyStr × Int)) (c : Char) : Option Int :=
  gs.foldl (fun acc g => if c ∈ g.1 then some g.2 else acc) none

/-- The raw comma-separated groups `raw` all parse, in order, to the
structured `(prefixes, limit)` list `gs`. -/
def groupsRepr : List PyStr → List (PyStr × Int) → Prop
  | [], [] => True
  | g :: raw, (pfxs, n) :: gs =>
    (∃ nstr, pySplitSep g ':' = [pfxs, nstr] ∧ pyIntParse nstr = some n) ∧
      groupsRepr raw gs
  | _, _ => False

/-! The incoming IRC line parser (`IRCServerConnection.consume`).  Its
regex is `^(:(?P<pfx>[^ ]+) +)?(?P<command>[^ ]+)( *(?P<argument> .+))?`;
`regexMatch` below replays that match, backtracking included. -/

/-- An `Event` as built by `consume`. -/
structure EventT where
  etype : PyStr
  source : Option PyStr
  target : Option PyStr
  arguments : List PyStr
  deriving DecidableEq

/-- The numeric-to-event `codemap`. -/
def codemap : List (PyStr × PyStr) :=
  [(str "001", str "welcome"), (str "005", str "featurelist"),
   (str "432", str "erroneusnickname"), (str "433", str "nicknameinuse"),
   (str "436", str "nickcollision"), (str "437", str "unavailresource")]

/-- The optional third regex group `( *( .+))?` applied to the text after
the command (which is empty or starts with a space).  With text after the
spaces, backtracking leaves exactly one space in the group; an all-space
tail of length at least two matches as two spaces (`.` matches a space);
otherwise the group is absent. -/
def argGroupOf (r : PyStr) : Option PyStr :=
  let rest := r.dropWhile (fun c => decide (c = ' '))
  if rest ≠ [] then some (' ' :: rest)
  else if 2 ≤ r.length then some [' ', ' ']
  else none

/-- The command-regex match on one line: the raw `pfx`, `command` and
`argument` groups, or `none` when the regex does not match at all (a line
starting with a space, or a lone `":..."` token cannot satisfy the
mandatory command group after a prefix). -/
def regexMatch (line : PyStr) : Option (Option PyStr × PyStr × Option PyStr) :=
  let noPfx : PyStr → Option (Option PyStr × PyStr × Option PyStr) := fun l =>
    if l = [] ∨ hd0 l = ' ' then none
    else
      some (none, l.takeWhile (fun c => decide (c ≠ ' ')),
            argGroupOf (l.dropWhile (fun c => decide (c ≠ ' '))))
  match line with
  | ':' :: rest =>
    let p := rest.takeWhile (fun c => decide (c ≠ ' '))
    let afterP := rest.dropWhile (fun c => decide (c ≠ ' '))
    let afterSp := afterP.dropWhile (fun c => decide (c = ' '))
    if p ≠ [] ∧ afterP ≠ [] ∧ afterSp ≠ [] then
      some (some p, afterSp.takeWhile (fun c => decide (c ≠ ' ')),
            argGroupOf (afterSp.dropWhile (fun c => decide (c ≠ ' '))))
    else noPfx line
  | _ => noPfx line

/-- The per-line event construction of `consume`: split the argument
group at `" :"` into word arguments plus one trailing argument, map
numerics through `codemap`, then take the per-command branch.  An absent
argument group leaves `arguments` as Python `None`, so `arguments.pop(0)`
raises `AttributeError` and `arguments[0]` raises `TypeError`; an empty
word list raises `IndexError`. -/
def parseIrcLine (line : PyStr) : Except PyErr EventT :=
  match regexMatch line with
  | none => .error .attributeError
  | some (pfx, cmdRaw, argGroup) =>
    let cmd0 := pyLower cmdRaw
    let args : Option (List PyStr) :=
      argGroup.map (fun a =>
        match splitSpColonFirst a with
        | some (a0, trailing) => pySplitWs a0 ++ [trailing]
        | none => pySplitWs a)
    let cmd := (lookupA codemap cmd0).getD cmd0
    if cmd = str "privmsg" ∨ cmd = str "notice" then
      match args with
      | none => .error .attributeError
      | some [] => .error .indexError
      | some (t :: restArgs) => .ok ⟨cmd, pfx, some t, restArgs⟩
    else if cmd = str "quit" then
      match args with
      | none => .error .typeError
      | some [] => .error .indexError
      | some (a :: _) => .ok ⟨cmd, pfx, none, [a]⟩
    else if cmd = str "ping" then
      match args with
      | none => .error .typeError
      | some [] => .error .indexError
      | some (a :: restArgs) => .ok ⟨cmd, pfx, some a, a :: restArgs⟩
    else
      match args with
      | none => .error .typeError
      | some [] => .error .indexError
      | some (a :: restArgs) => .ok ⟨cmd, pfx, some a, restArgs⟩

/-- The regex found an argument part on the line. -/
def hasArgumentPart (line : PyStr) : Bool :=
  match regexMatch line with
  | some (_, _, some _) => true
  | _ => false

/-! Concrete states used by the counterexamples and witnesses. -/

/-- A live, full Connection joined only to `"#old"` (its `'#'` limit is 1),
with an idle `last_xmit` of 0 for that channel. -/
def c1conn : ConnState :=
  { status := ConnStatus.ready, hasConnection := true, nick_trial := 1,
    last_xmit := 0, last_ping := 0,
    channels_joined := [(str "#old", 0)],
    channel_limits := [('#', 1)],
    queue := [], threadAlive := true,
    nick_template := str "irker%03d", nick_needs_number := true }

/-- A Dispatcher whose whole pool is `c1conn`. -/
def c1disp : DispState :=
  { connections := [c1conn], nick_template := str "irker%03d",
    nick_needs_number := true }

/-- A Connection with an empty `channel_limits` dict that is joined to 18
distinct `'&'`-prefixed channels. -/
def c2conn : ConnState :=
  { status := ConnStatus.ready, hasConnection := true, nick_trial := 1,
    last_xmit := 0, last_ping := 0,
    channels_joined := (List.range 18).map (fun i => ('&' :: (Nat.repr i).data, (0 : Int))),
    channel_limits := [],
    queue := [], threadAlive := true,
    nick_template := str "irker%03d", nick_needs_number := true }

/-- A small Connection used by the C2 witness: one `'#'` channel joined,
`'#'` limit 5. -/
def c2small : ConnState :=
  { status := ConnStatus.ready, hasConnection := true, nick_trial := 1,
    last_xmit := 0, last_ping := 0,
    channels_joined := [(str "#a", 0)],
    channel_limits := [('#', 5)],
    queue := [], threadAlive := true,
    nick_template := str "irker%03d", nick_needs_number := true }

/-- A disconnected Connection with an empty queue, one second after its
last transmission. -/
def c3conn : ConnState :=
  { status := ConnStatus.disconnected, hasConnection := false, nick_trial := 1,
    last_xmit := 1000, last_ping := 1000,
    channels_joined := [], channel_limits := [],
    queue := [], threadAlive := true,
    nick_template := str "irker%03d", nick_needs_number := true }

/-- A disconnected Connection with a nonempty queue (for the C3 witness). -/
def c3busy : ConnState :=
  { status := ConnStatus.disconnected, hasConnection := false, nick_trial := 1,
    last_xmit := 1000, last_ping := 1000,
    channels_joined := [], channel_limits := [],
    queue := [⟨str "#devel", some (str "hello"), []⟩], threadAlive := true,
    nick_template := str "irker%03d", nick_needs_number := true }

/-- A 501-character channel name. -/
def c6chan : PyStr := '#' :: List.replicate 500 'a'

/-- A ready Connection joined to the oversized channel with one queued
two-character message for it. -/
def c6conn : ConnState :=
  { status := ConnStatus.ready, hasConnection := true, nick_trial := 1,
    last_xmit := 0, last_ping := 0,
    channels_joined := [(c6chan, 0)], channel_limits := [],
    queue := [⟨c6chan, some (str "ab"), []⟩], threadAlive := true,
    nick_template := str "irker%03d", nick_needs_number := true }

/-- A ready Connection used by the C6 and C7 witnesses: joined to
`"#devel"` and `"#doc"`, with a two-line message queued for `"#devel"` and
a message pending for each channel. -/
def c7conn : ConnState :=
  { status := ConnStatus.ready, hasConnection := true, nick_trial := 1,
    last_xmit := 0, last_ping := 0,
    channels_joined := [(str "#devel", 10), (str "#doc", 20)],
    channel_limits := [],
    queue := [⟨str "#devel", some (str "one"), []⟩, ⟨str "#doc", some (str "two"), []⟩],
    threadAlive := true,
    nick_template := str "irker%03d", nick_needs_number := true }

/-- A handshaking Connection whose nick template has no `%d` marker. -/
def c8conn : ConnState :=
  { status := ConnStatus.handshaking, hasConnection := true, nick_trial := 5,
    last_xmit := 0, last_ping := 0,
    channels_joined := [], channel_limits := [],
    queue := [], threadAlive := true,
    nick_template := str "mybot", nick_needs_number := false }

/-- A handshaking Connection with the stock numbered nick template. -/
def c8numbered : ConnState :=
  { status := ConnStatus.handshaking, hasConnection := true, nick_trial := 5,
    last_xmit := 0, last_ping := 0,
    channels_joined := [], channel_limits := [],
    queue := [], threadAlive := true,
    nick_template := str "irker%03d", nick_needs_number := true }

/-- A `"to"` list mixing a non-string entry, a valid URL and a URL with no
channel. -/
def c4urls : List JValue :=
  [JValue.jnum 42, JValue.jstr (str "irc://example.net/devel"),
   JValue.jstr (str "irc://nochannel.example/")]

/-- A request object carrying `c4urls` and the message `"hi"`. -/
def c4kvs : List (PyStr × JValue) :=
  [(str "to", JValue.jarr c4urls), (str "privmsg", JValue.jstr (str "hi"))]

/-- The Target parsed from `irc://example.org/Devel?key=s`. -/
def c5target : TargetT :=
  ⟨str "irc://example.org/Devel?key=s", false, none, none, str "example.org",
   6667, str "#devel", str "s"⟩

/-! Helper lemmas about the dict model. -/

theorem lookupA_setA {α β : Type} [DecidableEq α] (l : List (α × β)) (k k' : α) (v : β) :
    lookupA (setA l k v) k' = if k' = k then some v else lookupA l k' := by
  induction l with
  | nil =>
    by_cases h : k' = k
    · subst h; simp [setA, lookupA]
    · simp [setA, lookupA, h, Ne.symm h]
  | cons p rest ih =>
    obtain ⟨a, b⟩ := p
    by_cases hak : a = k
    · subst hak
      by_cases h : k' = a
      · subst h; simp [setA, lookupA]
      · simp [setA, lookupA, h, Ne.symm h]
    · by_cases h2 : a = k'
      · subst h2
        simp [setA, lookupA, hak, Ne.symm hak]
      · simp [setA, lookupA, hak, h2, ih]

theorem lookupA_delA_self {α β : Type} [DecidableEq α] (l : List (α × β)) (k : α) :
    lookupA (delA l k) k = none := by
  induction l with
  | nil => rfl
  | cons p rest ih =>
    obtain ⟨a, b⟩ := p
    by_cases h : a = k
    · simp [delA, h, ih]
    · simp [delA, lookupA, h, ih]

theorem lookupA_delA_ne {α β : Type} [DecidableEq α] (l : List (α × β)) (k k' : α)
    (h : k' ≠ k) : lookupA (delA l k) k' = lookupA l k' := by
  induction l with
  | nil => rfl
  | cons p rest ih =>
    obtain ⟨a, b⟩ := p
    by_cases h1 : a = k
    · have h2 : a ≠ k' := by rw [h1]; exact Ne.symm h
      simp [delA, lookupA, h1, h2, Ne.symm h, ih]
    · simp [delA, lookupA, h1, ih]

theorem foldl_count_aux (c : Char) (l : List (PyStr × Int)) (n : Nat) :
    l.foldl (fun acc p => if hd0 p.1 = c then acc + 1 else acc) n =
      n + l.countP (fun p => decide (hd0 p.1 = c)) := by
  induction l generalizing n with
  | nil => simp
  | cons p rest ih =>
    by_cases h : hd0 p.1 = c <;>
      simp [List.foldl_cons, List.countP_cons, h, ih] <;> omega

theorem matchCount_eq_countP (joined : List (PyStr × Int)) (c : Char) :
    matchCount joined c = joined.countP (fun p => decide (hd0 p.1 = c)) := by
  simpa [matchCount] using foldl_count_aux c joined 0

theorem countP_setA (g : PyStr → Bool) (l : List (PyStr × Int)) (k : PyStr) (v : Int) :
    (setA l k v).countP (fun it => g it.1) =
      if (lookupA l k).isSome then l.countP (fun it => g it.1)
      else l.countP (fun it => g it.1) + (if g k then 1 else 0) := by
  induction l with
  | nil => simp [setA, lookupA, List.countP_cons]
  | cons p rest ih =>
    obtain ⟨a, b⟩ := p
    by_cases h : a = k
    · subst h
      simp [setA, lookupA, List.countP_cons]
    · simp only [setA, lookupA, if_neg h, List.countP_cons, ih]
      by_cases hl : (lookupA rest k).isSome <;> simp [hl] <;> omega

/-! C1.  The claim describes the intended placement policy of
`Dispatcher.dispatch`; rules 1, 2 and 4 are implemented, but the
scavenging rule is unreachable: the loop over live connections reads
`connections.channels_joined` on the *list* object, raising
`AttributeError` on its first iteration whenever any live Connection
exists (and the branch would next call the nonexistent
`Connection.part`).  The theorem evaluates the embedded dispatch at the
failing input. -/

/-- C1: dispatching `"#new"` onto a pool whose single live Connection is
full (its `'#'` limit is 1 and it is joined only to the idle `"#old"`,
stale by `CHANNEL_TTL` at time 20000) raises `AttributeError` instead of
scavenging `"#old"`. -/
theorem c1_scavenge_attribute_error :
    dispatchE c1disp (str "#new") (some (str "hi")) [] false 20000 =
      Except.error PyErr.attributeError ∧
    (0 : Int) < 20000 - CHANNEL_TTL := by
  exact ⟨rfl, by decide⟩

/-! C3.  The claim inverts the source's two disconnected branches: with an
empty queue a disconnected Connection is expired immediately (lines
538-541), while the `DISCONNECT_TTL` deadline governs the nonempty-queue
case (lines 560-566), whose else-path reconnects. -/

/-- C3 counterexample: a disconnected Connection with an empty queue is
expired by the very next consumer iteration even though the 24-hour
`DISCONNECT_TTL` deadline (which the claim requires) is nowhere near
expired. -/
theorem c3_empty_queue_expires_immediately :
    (dequeueStep c3conn ⟨1001, true, 5⟩).state.status = ConnStatus.expired ∧
    (dequeueStep c3conn ⟨1001, true, 5⟩).brk = true ∧
    ¬ ((1001 : Int) > c3conn.last_xmit + DISCONNECT_TTL) :=
  ⟨rfl, rfl, by decide⟩

/-- C3 amended: a disconnected Connection with an *empty* queue is expired
immediately, regardless of `DISCONNECT_TTL`; with a *nonempty* queue it is
expired when `now > last_xmit + DISCONNECT_TTL`, and otherwise attempts to
open a new server connection and re-handshake (expiring if the connect
attempt fails). -/
theorem c3_disconnected_lifecycle (s : ConnState) (i : StepIn)
    (h : s.status = ConnStatus.disconnected) :
    (s.queue = [] →
      dequeueStep s i = ⟨{ s with status := ConnStatus.expired }, [], true⟩) ∧
    (s.queue ≠ [] → i.now > s.last_xmit + DISCONNECT_TTL →
      dequeueStep s i = ⟨{ s with status := ConnStatus.expired }, [], true⟩) ∧
    (s.queue ≠ [] → ¬ i.now > s.last_xmit + DISCONNECT_TTL → s.hasConnection = false →
      (i.connectOk = true →
        dequeueStep s i =
          ⟨{ s with hasConnection := true, nick_trial := i.nickDraw,
                    channels_joined := [], status := ConnStatus.handshaking,
                    last_xmit := i.now, last_ping := i.now },
           [Action.connectTo,
            Action.nick (nicknameFor s.nick_template s.nick_needs_number i.nickDraw),
            Action.user], false⟩) ∧
      (i.connectOk = false →
        dequeueStep s i =
          ⟨{ s with hasConnection := true, nick_trial := i.nickDraw,
                    channels_joined := [], status := ConnStatus.expired },
           [Action.connectTo], true⟩)) := by
  refine ⟨?_, ?_, ?_⟩
  · intro hq
    simp [dequeueStep, hq, h]
  · intro hq hd
    simp [dequeueStep, hq, h, hd]
  · intro hq hd hc
    constructor <;> intro hco <;> simp [dequeueStep, hq, h, hd, hc, hco]

/-- C3 witness: a disconnected Connection with a pending item, well inside
the `DISCONNECT_TTL` window, attempts a reconnect and re-handshakes. -/
theorem c3_disconnected_lifecycle_witness :
    dequeueStep c3busy ⟨2000, true, 7⟩ =
      ⟨{ c3busy with hasConnection := true, nick_trial := 7,
                     channels_joined := [], status := ConnStatus.handshaking,
                     last_xmit := 2000, last_ping := 2000 },
       [Action.connectTo,
        Action.nick (nicknameFor c3busy.nick_template c3busy.nick_needs_number 7),
        Action.user], false⟩ :=
  ((c3_disconnected_lifecycle c3busy ⟨2000, true, 7⟩ rfl).2.2
    (by decide) (by decide) rfl).1 rfl

/-! C7.  `Connection.handle_kick` drops exactly the kicked channel,
filters exactly its pending items keeping the order of the rest, and
leaves the session ready. -/

/-- C7: after `handle_kick outof` on a joined channel, `outof` is gone
from `channels_joined` while every other channel's entry is unchanged, the
queue keeps exactly the items for other channels in their original
relative order, the status is ready, and all other fields are untouched. -/
theorem c7_kick_frame (s : ConnState) (outof : PyStr)
    (h : s.joined_to outof = true) :
    lookupA (handle_kick s outof).channels_joined outof = none ∧
    (∀ ch, ch ≠ outof →
      lookupA (handle_kick s outof).channels_joined ch = lookupA s.channels_joined ch) ∧
    (handle_kick s outof).queue = s.queue.filter (fun it => decide (it.channel ≠ outof)) ∧
    (handle_kick s outof).status = ConnStatus.ready ∧
    (handle_kick s outof).channel_limits = s.channel_limits ∧
    (handle_kick s outof).nick_trial = s.nick_trial ∧
    (handle_kick s outof).last_xmit = s.last_xmit ∧
    (handle_kick s outof).last_ping = s.last_ping ∧
    (handle_kick s outof).hasConnection = s.hasConnection :=
  ⟨lookupA_delA_self s.channels_joined outof,
   fun ch hch => lookupA_delA_ne s.channels_joined outof ch hch,
   rfl, rfl, rfl, rfl, rfl, rfl, rfl⟩

/-- C7 witness: kicked out of `"#devel"`, the Connection forgets that
channel, keeps `"#doc"` and its pending item, and is ready again. -/
theorem c7_kick_frame_witness :
    lookupA (handle_kick c7conn (str "#devel")).channels_joined (str "#devel") = none ∧
    lookupA (handle_kick c7conn (str "#devel")).channels_joined (str "#doc") = some 20 ∧
    (handle_kick c7conn (str "#devel")).queue = [⟨str "#doc", some (str "two"), []⟩] ∧
    (handle_kick c7conn (str "#devel")).status = ConnStatus.ready := by
  have h := c7_kick_frame c7conn (str "#devel") (by decide)
  refine ⟨h.1, ?_, ?_, h.2.2.2.1⟩
  · rw [h.2.1 (str "#doc") (by decide)]; rfl
  · rw [h.2.2.1]; rfl

/-! C8.  `Connection.handle_badnick` acts only when the nick template
carries a `%d` marker (`nick_needs_number`): the claim's unconditional
"increment and re-NICK" fails for a plain template, where the handler
falls through doing nothing. -/

/-- C8 counterexample: on a bad-nick event for a Connection whose template
is the plain `"mybot"`, nothing is sent and `nick_trial` stays 5, while
the claim requires an increment from `{1,2,3}` and a new NICK. -/
theorem c8_badnick_ignored_without_marker :
    handle_badnick c8conn 50 2 = (c8conn, []) ∧
    c8conn.nick_trial = 5 ∧
    c8conn.status = ConnStatus.handshaking :=
  ⟨rfl, rfl, rfl⟩

/-- C8 amended: when the nick template needs a number, a bad-nick event
adds the `random.randint(1,3)` draw to `nick_trial` and ships a NICK with
the resulting nickname, leaving the status (handshaking) unchanged;
when the template has no `%d` marker the event is ignored. -/
theorem c8_badnick_behaviour :
    (∀ (s : ConnState) (now r : Int), 1 ≤ r → r ≤ 3 → s.nick_needs_number = true →
      handle_badnick s now r =
        ({ s with nick_trial := s.nick_trial + r, last_xmit := now },
         [Action.nick (nicknameFor s.nick_template true (s.nick_trial + r))]) ∧
      (handle_badnick s now r).1.status = s.status) ∧
    (∀ (s : ConnState) (now r : Int), s.nick_needs_number = false →
      handle_badnick s now r = (s, [])) := by
  constructor
  · intro s now r _ _ h
    refine ⟨by simp [handle_badnick, h], ?_⟩
    simp [handle_badnick, h]
  · intro s now r h
    simp [handle_badnick, h]

/-- C8 witness: with the stock `"irker%03d"` template and a draw of 2,
trial 5 becomes 7 and `NICK irker007` is shipped. -/
theorem c8_badnick_behaviour_witness :
    handle_badnick c8numbered 50 2 =
      ({ c8numbered with nick_trial := 7, last_xmit := 50 },
       [Action.nick (str "irker007")]) := by
  have h := (c8_badnick_behaviour.1 c8numbered 50 2 (by decide) (by decide) rfl).1
  rw [h]
  rfl

/-! C2.  `Connection.accepting` compares per-prefix counts only when the
`channel_limits` dict is nonempty; with no recorded ISUPPORT limit it caps
the *total* number of joined channels at `CHANNEL_MAX`, so the claim's
"exactly when the per-prefix count is below the limit, including when no
ISUPPORT limit has been recorded" fails. -/

/-- C2 counterexample: a Connection with an empty `channel_limits` dict
joined to 18 `'&'` channels refuses `"#x"` although zero joined channels
share its `'#'` prefix and the defaulted limit is `CHANNEL_MAX` — the
claim would make `accepting` return true. -/
theorem c2_empty_limits_counterexample :
    c2conn.accepting (str "#x") = false ∧
    c2conn.channels_joined.countP (fun it => decide (hd0 it.1 = hd0 (str "#x"))) = 0 ∧
    limitGet c2conn.channel_limits (hd0 (str "#x")) = CHANNEL_MAX :=
  ⟨by decide, by decide, rfl⟩

/-- C2 amended: `accepting channel` is true exactly when, with a nonempty
`channel_limits` dict, the count of joined channels sharing `channel`'s
first character is strictly below `channel_limits.get(prefix,
CHANNEL_MAX)`, and, with an empty dict, when the *total* joined count is
strictly below `CHANNEL_MAX`; and an enqueue-time placement that passes
this check preserves the per-prefix bound
`count(p) ≤ channel_limits.get(p, CHANNEL_MAX)` for every prefix. -/
theorem c2_accepting_characterization :
    (∀ (s : ConnState) (ch : PyStr),
      s.accepting ch = true ↔
        (if s.channel_limits = [] then (s.channels_joined.length : Int) < CHANNEL_MAX
         else ((s.channels_joined.countP (fun it => decide (hd0 it.1 = hd0 ch)) : Int) <
           limitGet s.channel_limits (hd0 ch)))) ∧
    (∀ (s : ConnState) (ch : PyStr) (t : Int) (p : Char),
      (∀ q : Char, ((s.channels_joined.countP (fun it => decide (hd0 it.1 = q)) : Int) ≤
        limitGet s.channel_limits q)) →
      s.accepting ch = true →
      (((setA s.channels_joined ch t).countP (fun it => decide (hd0 it.1 = p)) : Int) ≤
        limitGet s.channel_limits p)) := by
  have hchar : ∀ (s : ConnState) (ch : PyStr),
      s.accepting ch = true ↔
        (if s.channel_limits = [] then (s.channels_joined.length : Int) < CHANNEL_MAX
         else ((s.channels_joined.countP (fun it => decide (hd0 it.1 = hd0 ch)) : Int) <
           limitGet s.channel_limits (hd0 ch))) := by
    intro s ch
    by_cases hl : s.channel_limits = []
    · simp [ConnState.accepting, hl]
    · simp [ConnState.accepting, hl, matchCount_eq_countP]
  refine ⟨hchar, ?_⟩
  intro s ch t p hq hacc
  rw [hchar] at hacc
  by_cases hl : s.channel_limits = []
  · rw [if_pos hl] at hacc
    have hlim : limitGet s.channel_limits p = CHANNEL_MAX := by rw [hl]; rfl
    have hlen := List.countP_le_length
      (l := s.channels_joined) (p := fun it => decide (hd0 it.1 = p))
    have hcount : (setA s.channels_joined ch t).countP (fun it => decide (hd0 it.1 = p)) ≤
        s.channels_joined.length + 1 := by
      rw [countP_setA (fun kk => decide (hd0 kk = p))]
      by_cases hs : (lookupA s.channels_joined ch).isSome
      · rw [if_pos hs]; omega
      · rw [if_neg hs]; split <;> omega
    rw [hlim]
    rw [CHANNEL_MAX] at hacc ⊢
    omega
  · rw [if_neg hl] at hacc
    rw [countP_setA (fun kk => decide (hd0 kk = p))]
    by_cases hs : (lookupA s.channels_joined ch).isSome
    · rw [if_pos hs]; exact hq p
    · rw [if_neg hs]
      by_cases hp : hd0 ch = p
      · subst hp
        rw [if_pos (by simp)]
        push_cast
        omega
      · rw [if_neg (by simp [hp])]
        simpa using hq p

/-- C2 witness: a Connection with `'#'` limit 5 and one `'#'` channel
joined accepts `"#b"`, and placing it keeps the `'#'` count within the
limit. -/
theorem c2_accepting_characterization_witness :
    ((setA c2small.channels_joined (str "#b") 7).countP
        (fun it => decide (hd0 it.1 = '#')) : Int) ≤ limitGet c2small.channel_limits '#' := by
  refine c2_accepting_characterization.2 c2small (str "#b") 7 '#' ?_ (by decide)
  intro q
  by_cases h : ('#' : Char) = q
  · rw [← h]; decide
  · have hpred : hd0 (str "#a") = '#' := rfl
    have h0 : c2small.channels_joined.countP (fun it => decide (hd0 it.1 = q)) = 0 := by
      simp [c2small, List.countP_cons, hpred, h]
    have h18 : limitGet c2small.channel_limits q = 18 := by
      simp [limitGet, c2small, lookupA, h, CHANNEL_MAX]
    rw [h0, h18]
    norm_num

/-! C10.  The incoming line parser indexes `arguments` in every
per-command branch, but `arguments` is still the `None` sentinel whenever
the regex found no argument part, so event construction fails on
well-formed lines such as a bare `PING` or `QUIT`. -/

/-- C10: bare `PING` and `QUIT` lines fail event construction with a
`TypeError` (`None[0]`), and an Event is only ever produced for lines on
which the regex found an argument part. -/
theorem c10_event_requires_arguments :
    parseIrcLine (str "PING") = Except.error PyErr.typeError ∧
    parseIrcLine (str "QUIT") = Except.error PyErr.typeError ∧
    ∀ (line : PyStr) (ev : EventT), parseIrcLine line = Except.ok ev →
      hasArgumentPart line = true := by
  refine ⟨rfl, rfl, ?_⟩
  intro line ev h
  unfold parseIrcLine at h
  cases hm : regexMatch line with
  | none => rw [hm] at h; cases h
  | some g =>
    obtain ⟨pfx, cmd, ag⟩ := g
    rw [hm] at h
    cases ag with
    | some a => simp [hasArgumentPart, hm]
    | none =>
      simp only [Option.map_none'] at h
      split at h
      · cases h
      · split at h
        · cases h
        · split at h
          · cases h
          · cases h

/-- C10 witness: `PING :server1` does carry an argument part and parses to
a ping event. -/
theorem c10_event_requires_arguments_witness :
    parseIrcLine (str "PING :server1") =
      Except.ok ⟨str "ping", none, some (str "server1"), [str "server1"]⟩ ∧
    hasArgumentPart (str "PING :server1") = true :=
  ⟨rfl, c10_event_requires_arguments.2.2 (str "PING :server1")
    ⟨str "ping", none, some (str "server1"), [str "server1"]⟩ rfl⟩

/-! C4.  `Irker._parse_request` drops a request whose top-level shape is
wrong, producing no targets (the exception is caught in `Irker.handle` and
only logged; the fire-and-forget transports return nothing to the
sender); within a well-shaped request each invalid URL of the `"to"` list
is logged and skipped while the valid ones still become Targets, in
order. -/

theorem parseTargets_ok (urls : List JValue)
    (h : ∀ u ∈ urls, urlNoValueError u = true) :
    parseTargets urls = Except.ok (urls.filterMap goodTarget) := by
  induction urls with
  | nil => rfl
  | cons u rest ih =>
    have hu := h u (List.mem_cons_self u rest)
    have hrest := ih (fun v hv => h v (List.mem_cons_of_mem u hv))
    cases u with
    | jstr s =>
      cases ht : targetOfE s with
      | error e => simp [urlNoValueError, ht] at hu
      | ok t =>
        by_cases hv : validateOk t = true <;>
          simp [parseTargets, ht, hrest, goodTarget, List.filterMap_cons, hv, Except.map]
    | jnum n => simp [parseTargets, hrest, goodTarget, List.filterMap_cons]
    | jbool b => simp [parseTargets, hrest, goodTarget, List.filterMap_cons]
    | jnull => simp [parseTargets, hrest, goodTarget, List.filterMap_cons]
    | jarr xs => simp [parseTargets, hrest, goodTarget, List.filterMap_cons]
    | jobj kvs => simp [parseTargets, hrest, goodTarget, List.filterMap_cons]

/-- C4: a request that is not an object with a string-or-list `"to"` and a
string `"privmsg"` is rejected with `InvalidRequest` — caught and logged,
so no Target is produced and no Dispatcher is touched — while a
well-shaped request whose `"to"` list mixes invalid entries (non-strings,
URLs without a servername or channel) with valid URLs still yields exactly
the valid Targets, in order. -/
theorem c4_request_filtering :
    (∀ j : JValue, wellShaped j = false →
      parseRequest j = Except.error PyErr.invalidRequest ∧ requestTargets j = []) ∧
    (∀ (kvs : List (PyStr × JValue)) (urls : List JValue) (msg : PyStr),
      lookupA kvs (str "to") = some (JValue.jarr urls) →
      lookupA kvs (str "privmsg") = some (JValue.jstr msg) →
      (∀ u ∈ urls, urlNoValueError u = true) →
      parseRequest (JValue.jobj kvs) = Except.ok (urls.filterMap goodTarget, msg)) := by
  constructor
  · intro j h
    have hp : parseRequest j = Except.error PyErr.invalidRequest := by
      cases j with
      | jstr s => rfl
      | jnum n => rfl
      | jbool b => rfl
      | jnull => rfl
      | jarr xs => rfl
      | jobj kvs =>
        simp only [wellShaped] at h
        simp only [parseRequest]
        cases h1 : lookupA kvs (str "to") with
        | none => simp [h1]
        | some toV =>
          cases h2 : lookupA kvs (str "privmsg") with
          | none => simp [h1, h2]
          | some pmV =>
            rw [h1, h2] at h
            cases toV <;> cases pmV <;> simp_all
    exact ⟨hp, by simp [requestTargets, hp]⟩
  · intro kvs urls msg h1 h2 h3
    simp only [parseRequest, h1, h2]
    rw [parseTargets_ok urls h3]
    rfl

/-- C4 witness: of the mixed list `c4urls`, only the URL with servername
and channel becomes a Target; the non-string and the channel-less URL are
dropped, and the request still succeeds. -/
theorem c4_request_filtering_witness :
    wellShaped (JValue.jobj c4kvs) = true ∧
    parseRequest (JValue.jobj c4kvs) =
      Except.ok ([⟨str "irc://example.net/devel", false, none, none,
        str "example.net", 6667, str "#devel", []⟩], str "hi") := by
  refine ⟨rfl, ?_⟩
  have h := c4_request_filtering.2 c4kvs c4urls (str "hi") rfl rfl (by decide)
  rw [h]
  rfl

/-! C5.  `Target.__init__` canonicalization, stated in the claim's shape
over the CPython URL components. -/

theorem isPrefixOf_append_self {α : Type} [BEq α] [LawfulBEq α] (l r : List α) :
    l.isPrefixOf (l ++ r) = true := by
  induction l with
  | nil => simp [List.isPrefixOf]
  | cons a as ih => simp [List.isPrefixOf, ih]

/-- C5: for every URL the Target construction accepts: a missing port
defaults to 6697 for scheme `ircs` and 6667 otherwise; on the lowercased,
slash-stripped channel with the fragment re-attached after a literal `'#'`
( `chanBase` ), the `",isnick"` suffix is stripped when present, and
otherwise a leading `'#'` is prepended exactly when the nonempty channel
does not already start with one of `#&+`; and a query `key=KEY` or bare
`KEY` yields the join key `KEY`. -/
theorem c5_target_canonicalization (url : PyStr) (t : TargetT)
    (h : targetOfE url = Except.ok t) :
    (portStrOf (urlsplitF url).netloc = none →
      t.port = if (urlsplitF url).scheme = str "ircs" then 6697 else 6667) ∧
    ((str ",isnick").isSuffixOf (chanBase url) = false →
      t.channel = if chanBase url ≠ [] ∧ hd0 (chanBase url) ∉ ['#', '&', '+']
        then '#' :: chanBase url else chanBase url) ∧
    ((str ",isnick").isSuffixOf (chanBase url) = true →
      t.channel = (chanBase url).take ((chanBase url).length - 7)) ∧
    (∀ K : PyStr,
      ((urlsplitF url).query = (str "key=") ++ K ∨
       ((urlsplitF url).query = K ∧ (str "key=").isPrefixOf K = false)) →
      t.key = K) := by
  simp only [targetOfE] at h
  cases hp : portOfE (urlsplitF url).netloc with
  | error e => rw [hp] at h; cases h
  | ok portOpt =>
    rw [hp] at h
    simp only [Except.ok.injEq] at h
    subst h
    refine ⟨?_, ?_, ?_, ?_⟩
    · intro hps
      simp only [portOfE, hps] at hp
      simp only [Except.ok.injEq] at hp
      subst hp
      rfl
    · intro hsuf
      simp [hsuf]
    · intro hsuf
      simp [hsuf]
    · intro K hK
      rcases hK with hq | ⟨hq, hnp⟩
      · have hdrop : List.drop 4 ((str "key=") ++ K) = K := List.drop_left (str "key=") K
        have hne : (str "key=") ++ K ≠ [] := by
          rw [show str "key=" = 'k' :: 'e' :: 'y' :: '=' :: [] from rfl]
          simp
        simp [hq, isPrefixOf_append_self, hdrop, hne]
      · cases K with
        | nil => simp [hq]
        | cons c rest => simp [hq, hnp]

/-- C5 witness: `irc://example.org/Devel?key=s` parses to port 6667,
channel `#devel` (lowercased, `'#'` prepended) and key `s`. -/
theorem c5_target_canonicalization_witness :
    targetOfE (str "irc://example.org/Devel?key=s") = Except.ok c5target ∧
    c5target.port = 6667 ∧ c5target.channel = str "#devel" ∧ c5target.key = str "s" := by
  have h := c5_target_canonicalization (str "irc://example.org/Devel?key=s") c5target rfl
  refine ⟨rfl, ?_, ?_, h.2.2.2 (str "s") (Or.inl rfl)⟩
  · rw [h.1 rfl]; rfl
  · rw [h.2.1 rfl]; rfl

/-! C6.  The ready-state send loop.  The claim's truncation bound
`≤ 500 − len(channel)` holds whenever `len(channel) ≤ 500`; for longer
channels the Python slice `segment[:500 - len(channel)]` has a negative
stop and instead removes the last `len(channel) − 500` characters, which
can leave a nonempty payload, so the claim as stated fails there. -/

theorem pySliceTo_length_le (s : PyStr) (m : Int) (hm : 0 ≤ m) :
    ((pySliceTo s m).length : Int) ≤ m := by
  rw [pySliceTo, if_neg (by omega)]
  have h1 : (s.take m.toNat).length ≤ m.toNat := by
    rw [List.length_take]; omega
  have h2 : ((m.toNat : Nat) : Int) = m := Int.toNat_of_nonneg hm
  omega

set_option maxRecDepth 10000 in
/-- C6 counterexample: with a 501-character channel, the two-character
message `"ab"` is delivered as the one-character PRIVMSG `"a"` — the
slice with negative stop dropped one character instead of truncating to
the (negative) claimed bound `500 − len(channel)`. -/
theorem c6_overlong_channel_counterexample :
    (dequeueStep c6conn ⟨5, true, 1⟩).actions = [Action.privmsg c6chan ['a']] ∧
    ¬ (((['a'] : PyStr).length : Int) ≤ 500 - (c6chan.length : Int)) :=
  ⟨rfl, by decide⟩

/-- C6 amended: in the ready state the consumer pops the head item, joins
the channel when not yet joined, QUITs on the `None` sentinel, sends
nothing for an empty string, and otherwise ships one PRIVMSG per
`"\n"`-segment with the Python slice `segment[:500 - len(channel)]`
applied when the segment is longer; whenever `len(channel) ≤ 500` every
shipped payload is at most `500 − len(channel)` characters. -/
theorem c6_ready_delivery (s : ConnState) (i : StepIn) (item : QItem) (rest : List QItem)
    (hst : s.status = ConnStatus.ready) (hc : s.hasConnection = true)
    (hq : s.queue = item :: rest) :
    (item.message = none →
      (dequeueStep s i).actions =
        (if lookupA s.channels_joined item.channel = none
         then [Action.join item.channel item.key] else []) ++ [Action.quit []]) ∧
    (item.message = some [] →
      (dequeueStep s i).actions =
        (if lookupA s.channels_joined item.channel = none
         then [Action.join item.channel item.key] else [])) ∧
    (∀ m, item.message = some m → m ≠ [] →
      (dequeueStep s i).actions =
        (if lookupA s.channels_joined item.channel = none
         then [Action.join item.channel item.key] else []) ++
        (pySplitSep m '\n').map (fun seg =>
          Action.privmsg item.channel
            (if (seg.length : Int) > 500 - (item.channel.length : Int)
             then pySliceTo seg (500 - (item.channel.length : Int)) else seg))) ∧
    ((item.channel.length : Int) ≤ 500 →
      ∀ txt, Action.privmsg item.channel txt ∈ (dequeueStep s i).actions →
        (txt.length : Int) ≤ 500 - (item.channel.length : Int)) := by
  have hact0 : item.message = none →
      (dequeueStep s i).actions =
        (if lookupA s.channels_joined item.channel = none
         then [Action.join item.channel item.key] else []) ++ [Action.quit []] := by
    intro hmsg
    simp [dequeueStep, hq, hst, hc, hmsg]
  have hactE : item.message = some [] →
      (dequeueStep s i).actions =
        (if lookupA s.channels_joined item.channel = none
         then [Action.join item.channel item.key] else []) := by
    intro hmsg
    simp [dequeueStep, hq, hst, hc, hmsg]
  have hactM : ∀ m, item.message = some m → m ≠ [] →
      (dequeueStep s i).actions =
        (if lookupA s.channels_joined item.channel = none
         then [Action.join item.channel item.key] else []) ++
        (pySplitSep m '\n').map (fun seg =>
          Action.privmsg item.channel
            (if (seg.length : Int) > 500 - (item.channel.length : Int)
             then pySliceTo seg (500 - (item.channel.length : Int)) else seg)) := by
    intro m hmsg hne
    simp [dequeueStep, hq, hst, hc, hmsg, hne]
  refine ⟨hact0, hactE, hactM, ?_⟩
  intro hlen txt hmem
  cases hmm : item.message with
  | none =>
    rw [hact0 hmm] at hmem
    rcases List.mem_append.mp hmem with h1 | h1
    · by_cases hj : lookupA s.channels_joined item.channel = none
      · rw [if_pos hj] at h1; simp at h1
      · rw [if_neg hj] at h1; simp at h1
    · simp at h1
  | some m =>
    by_cases hne : m = []
    · subst hne
      by_cases hj : lookupA s.channels_joined item.channel = none
      · rw [hactE hmm, if_pos hj] at hmem; simp at hmem
      · rw [hactE hmm, if_neg hj] at hmem; simp at hmem
    · rw [hactM m hmm hne] at hmem
      rcases List.mem_append.mp hmem with h1 | h1
      · by_cases hj : lookupA s.channels_joined item.channel = none
        · rw [if_pos hj] at h1; simp at h1
        · rw [if_neg hj] at h1; simp at h1
      · obtain ⟨seg, hsegmem, heq⟩ := List.mem_map.mp h1
        injection heq with hch htxt
        by_cases hgt : (seg.length : Int) > 500 - (item.channel.length : Int)
        · rw [← htxt, if_pos hgt]
          exact pySliceTo_length_le seg _ (by omega)
        · rw [← htxt, if_neg hgt]
          omega

/-- C6 witness: a ready Connection already joined to `#devel` delivers the
queued one-line message as a single untruncated PRIVMSG and nothing else. -/
theorem c6_ready_delivery_witness :
    (dequeueStep c7conn ⟨30, true, 1⟩).actions =
      [Action.privmsg (str "#devel") (str "one")] := by
  have h := (c6_ready_delivery c7conn ⟨30, true, 1⟩ ⟨str "#devel", some (str "one"), []⟩
      [⟨str "#doc", some (str "two"), []⟩] rfl rfl rfl).2.2.1 (str "one") rfl (by decide)
  rw [h]
  rfl

/-! C9.  `Irker._handle_features` recognizes `MAXCHANNELS=<n>` as claimed,
but its CHANLIMIT test is `lump.startswith("CHANLIMIT=#:")`: only tokens
whose *first group* is exactly the `'#'` prefix are processed, so
"any combination of the prefix characters" fails — e.g. `CHANLIMIT=&:10`
is silently ignored. -/

theorem lookupA_foldl_setA (pfxs : PyStr) (acc : List (Char × Int)) (n : Int) (c : Char) :
    lookupA (pfxs.foldl (fun a ch => setA a ch n) acc) c =
      if c ∈ pfxs then some n else lookupA acc c := by
  induction pfxs generalizing acc with
  | nil => simp
  | cons p ps ih =>
    rw [List.foldl_cons, ih]
    by_cases hps : c ∈ ps
    · simp [hps]
    · by_cases hcp : c = p
      · simp [hps, hcp, lookupA_setA]
      · simp [hps, hcp, lookupA_setA]

theorem lastLimitFrom (gs : List (PyStr × Int)) (c : Char) (o : Option Int) :
    gs.foldl (fun acc g => if c ∈ g.1 then some g.2 else acc) o =
      match lastLimitFor gs c with
      | some m => some m
      | none => o := by
  induction gs generalizing o with
  | nil => simp [lastLimitFor]
  | cons g gs ih =>
    have hR : lastLimitFor (g :: gs) c =
        match lastLimitFor gs c with
        | some m => some m
        | none => if c ∈ g.1 then some g.2 else none := by
      show List.foldl (fun acc g => if c ∈ g.1 then some g.2 else acc) none (g :: gs) = _
      rw [List.foldl_cons]
      exact ih (if c ∈ g.1 then some g.2 else none)
    rw [List.foldl_cons, ih (if c ∈ g.1 then some g.2 else o), hR]
    cases hl : lastLimitFor gs c <;> by_cases hc : c ∈ g.1 <;> simp [hl, hc]

theorem chanlimitLoop_lookup (raw : List PyStr) (gs : List (PyStr × Int))
    (h : groupsRepr raw gs) (acc : List (Char × Int)) (c : Char) :
    lookupA (chanlimitLoop acc raw) c =
      match lastLimitFor gs c with
      | some m => some m
      | none => lookupA acc c := by
  induction raw generalizing gs acc with
  | nil =>
    cases gs with
    | nil => simp [chanlimitLoop, lastLimitFor]
    | cons g gs => exact absurd h (by simp [groupsRepr])
  | cons g raw ih =>
    cases gs with
    | nil => exact absurd h (by simp [groupsRepr])
    | cons hg gs =>
      obtain ⟨pfxs, n⟩ := hg
      simp only [groupsRepr] at h
      obtain ⟨⟨nstr, hsplit, hparse⟩, hrest⟩ := h
      simp only [chanlimitLoop, hsplit, hparse]
      rw [ih gs hrest, lookupA_foldl_setA]
      have hR : lastLimitFor ((pfxs, n) :: gs) c =
          match lastLimitFor gs c with
          | some m => some m
          | none => if c ∈ pfxs then some n else none := by
        show List.foldl (fun acc g => if c ∈ g.1 then some g.2 else acc) none
            ((pfxs, n) :: gs) = _
        rw [List.foldl_cons]
        exact lastLimitFrom gs c (if c ∈ pfxs then some n else none)
      rw [hR]
      cases hl : lastLimitFor gs c <;> by_cases hc : c ∈ pfxs <;> simp [hl, hc]

/-- C9 counterexample: the featurelist token `CHANLIMIT=&:10` — a legal
CHANLIMIT whose first group names the `'&'` prefix — leaves
`channel_limits` empty, while the claim requires `channel_limits['&'] =
10`. -/
theorem c9_chanlimit_amp_ignored :
    handleFeatures false (str "irker003") [] [str "CHANLIMIT=&:10"] =
      Except.ok ([], []) ∧
    lookupA ([] : List (Char × Int)) '&' = none :=
  ⟨rfl, rfl⟩

/-- C9 amended: `MAXCHANNELS=<n>` sets `channel_limits[p] = n` for each
prefix `p` in `"#&+"`; a CHANLIMIT token is processed only when it begins
with the literal `CHANLIMIT=#:` (first group for prefix `'#'`) — for such
a token, with every comma-separated group well-formed, the limit of each
character is that of the last group naming it, and limits of unnamed
characters are unchanged; every other token (DEAF included) leaves
`channel_limits` unchanged. -/
theorem c9_feature_tokens :
    (∀ (lf : Bool) (nick : PyStr) (limits : List (Char × Int)) (d : PyStr) (m : Int),
      pyIntParse d = some m →
      featureStep lf nick limits ((str "MAXCHANNELS=") ++ d) =
        Except.ok (setA (setA (setA limits '#' m) '&' m) '+' m, []) ∧
      (∀ c : Char, lookupA (setA (setA (setA limits '#' m) '&' m) '+' m) c =
        if c = '+' ∨ c = '&' ∨ c = '#' then some m else lookupA limits c)) ∧
    (∀ (lf : Bool) (nick : PyStr) (limits : List (Char × Int)) (tail : PyStr)
       (gs : List (PyStr × Int)),
      featureStep lf nick limits ((str "CHANLIMIT=#:") ++ tail) =
        Except.ok (chanlimitLoop limits (pySplitSep ('#' :: ':' :: tail) ','), []) ∧
      (groupsRepr (pySplitSep ('#' :: ':' :: tail) ',') gs →
        ∀ c : Char,
          lookupA (chanlimitLoop limits (pySplitSep ('#' :: ':' :: tail) ',')) c =
            match lastLimitFor gs c with
            | some m => some m
            | none => lookupA limits c)) ∧
    (∀ (lf : Bool) (nick : PyStr) (limits : List (Char × Int)) (lump : PyStr),
      (str "MAXCHANNELS=").isPrefixOf lump = false →
      (str "CHANLIMIT=#:").isPrefixOf lump = false →
      ∃ acts, featureStep lf nick limits lump = Except.ok (limits, acts)) := by
  refine ⟨?_, ?_, ?_⟩
  · intro lf nick limits d m hparse
    have hdeaf : (str "DEAF=").isPrefixOf ((str "MAXCHANNELS=") ++ d) = false := rfl
    have hmax : (str "MAXCHANNELS=").isPrefixOf ((str "MAXCHANNELS=") ++ d) = true :=
      isPrefixOf_append_self (str "MAXCHANNELS=") d
    have hdrop : ((str "MAXCHANNELS=") ++ d).drop 12 = d := rfl
    refine ⟨?_, ?_⟩
    · simp only [featureStep, hdeaf, hmax, hdrop, hparse]
      simp
    · intro c
      rw [lookupA_setA, lookupA_setA, lookupA_setA]
      by_cases h1 : c = '+' <;> by_cases h2 : c = '&' <;> by_cases h3 : c = '#' <;>
        simp [h1, h2, h3]
  · intro lf nick limits tail gs
    have hdeaf : (str "DEAF=").isPrefixOf ((str "CHANLIMIT=#:") ++ tail) = false := rfl
    have hmax : (str "MAXCHANNELS=").isPrefixOf ((str "CHANLIMIT=#:") ++ tail) = false := rfl
    have hchan : (str "CHANLIMIT=#:").isPrefixOf ((str "CHANLIMIT=#:") ++ tail) = true :=
      isPrefixOf_append_self (str "CHANLIMIT=#:") tail
    have hdrop : ((str "CHANLIMIT=#:") ++ tail).drop 10 = '#' :: ':' :: tail := rfl
    refine ⟨?_, fun hgr c => chanlimitLoop_lookup _ gs hgr limits c⟩
    simp only [featureStep, hdeaf, hmax, hchan, hdrop]
    simp
  · intro lf nick limits lump h1 h2
    by_cases hd : (str "DEAF=").isPrefixOf lump = true
    · exact ⟨(if ¬ lf then [Action.mode nick ('+' :: lump.drop 5)] else []),
        by simp [featureStep, hd]⟩
    · exact ⟨[], by simp [featureStep, h1, h2, hd]⟩

/-- C9 witness: `MAXCHANNELS=3` sets the `#`, `&` and `+` limits to 3. -/
theorem c9_feature_tokens_witness :
    featureStep false (str "irker003") [] ((str "MAXCHANNELS=") ++ (str "3")) =
      Except.ok ([('#', 3), ('&', 3), ('+', 3)], []) ∧
    lookupA (setA (setA (setA ([] : List (Char × Int)) '#' 3) '&' 3) '+' 3) '&' = some 3 := by
  have h := c9_feature_tokens.1 false (str "irker003") [] (str "3") 3 (by decide)
  exact ⟨h.1.trans (by rfl), (h.2 '&').trans (by decide)⟩

end Irkerd
